import Mathlib

/-!
# Verification of the AnonyChat HTML generators

Shallow embedding of `src/HTML Creator/program.py` (the Page Generator) and,
where the spec describes a component whose source file is absent from `src/`
(the Tile Generator), a model built from the spec's words.

Strings are embedded as `List Char`; file contents read in binary mode as
`List Nat` (each element a byte value `< 256`).  The GUI event handler
`generate_html` is embedded as a pure function from the four input fields and
two read oracles (one for text files, one for binary files) to a result
together with the ordered list of observable effects it performs.
-/

namespace AnonyChat

/-! ## Python string primitives used by the program -/

/-- Embedding of Python's `str.replace(pat, rep)` for a one-character pattern
`pat` (the only shape the program uses): every occurrence of the character is
replaced by `rep`, left to right. -/
def replaceChar (s : List Char) (pat : Char) (rep : List Char) : List Char :=
  match s with
  | [] => []
  | x :: xs => (if x = pat then rep else [x]) ++ replaceChar xs pat rep

/-- Embedding of Python's `str.isalnum` restricted to code points below
`U+0100` (the Basic Latin and Latin-1 Supplement blocks); per the Unicode
database these are the decimal digits, the ASCII letters, `ª µ º ¹ ² ³ ¼ ½ ¾`
and the Latin-1 letters `À`–`ÿ` except `×` and `÷`.  Code points at or above
`U+0100` are outside the fragment exercised by the theorems below and are
mapped to `false`. -/
def pyIsAlnumNat (n : Nat) : Bool :=
  (48 ≤ n && n ≤ 57) || (65 ≤ n && n ≤ 90) || (97 ≤ n && n ≤ 122) ||
  (n == 0xAA) || (n == 0xB2) || (n == 0xB3) || (n == 0xB5) ||
  (n == 0xB9) || (n == 0xBA) || (0xBC ≤ n && n ≤ 0xBE) ||
  (0xC0 ≤ n && n ≤ 0xD6) || (0xD8 ≤ n && n ≤ 0xF6) || (0xF8 ≤ n && n ≤ 0xFF)

/-- Python `str.isalnum` on a character (see `pyIsAlnumNat`). -/
def pyIsAlnum (c : Char) : Bool := pyIsAlnumNat c.toNat

/-- The whitespace characters recognised by Python's `str.rstrip()` among code
points below `U+0100`: tab, newline, vertical tab, form feed, carriage
return, the file/group/record/unit separators, space, next line and no-break
space. -/
def pyIsSpace (c : Char) : Bool :=
  c.toNat == 9 || c.toNat == 10 || c.toNat == 11 || c.toNat == 12 ||
  c.toNat == 13 || (28 ≤ c.toNat && c.toNat ≤ 31) || c.toNat == 32 ||
  c.toNat == 0x85 || c.toNat == 0xA0

/-- Embedding of Python's `str.rstrip()` with no argument: remove trailing
whitespace. -/
def pyRstrip (s : List Char) : List Char :=
  (s.reverse.dropWhile pyIsSpace).reverse

/-- Embedding of Python's `str.lower` on ASCII characters (`A`–`Z` map to
`a`–`z`); characters outside ASCII are left unchanged, which agrees with
Python on every string these theorems evaluate it on. -/
def pyLowerAscii (c : Char) : Char :=
  if 65 ≤ c.toNat && c.toNat ≤ 90 then Char.ofNat (c.toNat + 32) else c

/-- Embedding of Python's `str.rfind(ch)` for a one-character needle: the
index of the last occurrence, or `-1` when absent. -/
def pyRfind (s : List Char) (ch : Char) : Int :=
  match s with
  | [] => -1
  | x :: xs =>
    let r := pyRfind xs ch
    if r ≥ 0 then r + 1 else if x = ch then 0 else -1

/-! ## Python path primitives (`posixpath`) -/

/-- Embedding of `os.path.splitext(p)[1]` (CPython `genericpath._splitext`
with `sep = '/'`, `extsep = '.'`): the extension including its dot, or the
empty string when there is none.  The extension starts at the last dot,
provided that dot lies after the last separator and the basename has at least
one non-dot character before it (so dotfiles such as `.bashrc` have no
extension). -/
def pySplitextExt (p : List Char) : List Char :=
  let sepIdx := pyRfind p '/'
  let dotIdx := pyRfind p '.'
  if sepIdx < dotIdx &&
      (List.range p.length).any
        (fun i => decide (sepIdx < (i : Int)) && decide ((i : Int) < dotIdx) &&
          p.getD i '.' != '.') then
    p.drop dotIdx.toNat
  else []

/-- Embedding of `os.path.join(a, b)` for two arguments (`posixpath.join`):
an absolute second component replaces the first; otherwise the two are
joined, inserting `/` unless the first is empty or already ends in `/`. -/
def pyPathJoin (a b : List Char) : List Char :=
  if b.head? = some '/' then b
  else if a = [] ∨ a.getLast? = some '/' then a ++ b
  else a ++ '/' :: b

/-! ## Base64 (embedding of `base64.b64encode`, line 45 of the program) -/

/-- The standard base64 alphabet used by Python's `base64.b64encode`. -/
def b64Alphabet : List Char :=
  "ABCDEFGHIJKLMNOPQRSTUVWXYZabcdefghijklmnopqrstuvwxyz0123456789+/".toList

/-- The alphabet character for a sextet value. -/
def sextetChar (n : Nat) : Char := b64Alphabet.getD n '?'

/-- Embedding of `base64.b64encode` on a byte list: groups of three bytes
become four alphabet characters; a final group of two or one byte is padded
with `=` or `==`. -/
def b64Encode : List Nat → List Char
  | b0 :: b1 :: b2 :: rest =>
    sextetChar (b0 / 4) :: sextetChar (b0 % 4 * 16 + b1 / 16) ::
    sextetChar (b1 % 16 * 4 + b2 / 64) :: sextetChar (b2 % 64) ::
    b64Encode rest
  | [b0, b1] =>
    [sextetChar (b0 / 4), sextetChar (b0 % 4 * 16 + b1 / 16),
     sextetChar (b1 % 16 * 4), '=']
  | [b0] =>
    [sextetChar (b0 / 4), sextetChar (b0 % 4 * 16), '=', '=']
  | [] => []

/-- The sextet value of a base64 alphabet character (standard RFC 4648
decoding table; characters outside the alphabet map to 0, unused on valid
input). -/
def sextetVal (c : Char) : Nat :=
  if 65 ≤ c.toNat && c.toNat ≤ 90 then c.toNat - 65
  else if 97 ≤ c.toNat && c.toNat ≤ 122 then c.toNat - 97 + 26
  else if 48 ≤ c.toNat && c.toNat ≤ 57 then c.toNat - 48 + 52
  else if c = '+' then 62
  else if c = '/' then 63
  else 0

/-- Decode one base64 quantum of four characters, honouring `=` padding. -/
def decodeChunk (c0 c1 c2 c3 : Char) : List Nat :=
  if c2 = '=' then [sextetVal c0 * 4 + sextetVal c1 / 16]
  else if c3 = '=' then
    [sextetVal c0 * 4 + sextetVal c1 / 16,
     sextetVal c1 % 16 * 16 + sextetVal c2 / 4]
  else
    [sextetVal c0 * 4 + sextetVal c1 / 16,
     sextetVal c1 % 16 * 16 + sextetVal c2 / 4,
     sextetVal c2 % 4 * 64 + sextetVal c3]

/-- Standard base64 decoding of a padded string, four characters at a time
(the decoding that Python's `base64.b64decode` performs on valid input). -/
def b64Decode : List Char → List Nat
  | c0 :: c1 :: c2 :: c3 :: rest => decodeChunk c0 c1 c2 c3 ++ b64Decode rest
  | _ => []

/-! ## The Page Generator (`generate_html`, lines 33–104 of the program) -/

/-- Line 46 of the program: `ext = os.path.splitext(path)[1].lower()[1:]`. -/
def mimeExt (path : List Char) : List Char :=
  ((pySplitextExt path).map pyLowerAscii).drop 1

/-- Line 47 of the program: the data URI
`f"data:image/\x7bext\x7d;base64,\x7bencoded_image\x7d"`. -/
def imgSrc (path : List Char) (data : List Nat) : List Char :=
  "data:image/".toList ++ mimeExt path ++ ";base64,".toList ++ b64Encode data

/-- The escaping the program applies to the game HTML before it is placed in
the `srcdoc` attribute (line 92):
`game_content.replace('"', '&quot;').replace('\n', ' ')`. -/
def escapeSrcdoc (content : List Char) : List Char :=
  replaceChar (replaceChar content '"' "&quot;".toList) '\n' " ".toList

/-- Text of the output template before the first `title` substitution. -/
def tmplSeg1 : String :=
  "<!DOCTYPE html>\n<html lang=\"en\">\n<head>\n<meta charset=\"UTF-8\">\n<meta name=\"viewport\" content=\"width=device-width, initial-scale=1.0\">\n<title>"

/-- Text of the output template between the two `title` substitutions (the
doubled braces of the f-string denote literal braces). -/
def tmplSeg2 : String :=
  "</title>\n<script src=\"https://cdn.tailwindcss.com\"></script>\n<link href=\"https://fonts.googleapis.com/css2?family=Inter:wght@400;600;800&display=swap\" rel=\"stylesheet\">\n<style>\nbody \x7b\n  margin: 0;\n  background: #1e1e2f;\n  color: white;\n  font-family: \x27Inter\x27, sans-serif;\n\x7d\n.game-container \x7b\n  max-width: 800px;\n  margin: 20px auto;\n  background: #2a2a40;\n  border-radius: 12px;\n  padding: 20px;\n  box-shadow: 0 4px 12px rgba(0,0,0,0.4);\n  text-align: center;\n\x7d\n.game-cover \x7b\n  width: 200px;\n  border-radius: 12px;\n\x7d\niframe \x7b\n  width: 100%;\n  height: 500px;\n  border: none;\n  margin-top: 20px;\n\x7d\n</style>\n</head>\n<body>\n<div class=\"game-container\">\n  <h1 class=\"text-2xl font-bold mb-4\">"

/-- Text of the output template between the `title` and `img_src`
substitutions. -/
def tmplSeg3 : String := "</h1>\n  <img src=\""

/-- Text of the output template between the `img_src` and escaped-content
substitutions. -/
def tmplSeg4 : String :=
  "\" class=\"game-cover\" alt=\"Cover image\">\n  <div>\n    <iframe srcdoc=\""

/-- Text of the output template after the escaped-content substitution. -/
def tmplSeg5 : String :=
  "\"></iframe>\n  </div>\n</div>\n</body>\n</html>\n"

/-- Lines 50–96 of the program: the f-string `final_html`, substituting the
title (twice), the data URI and the escaped game HTML into the fixed
template. -/
def finalHtml (title src content : List Char) : List Char :=
  tmplSeg1.toList ++ title ++ tmplSeg2.toList ++ title ++ tmplSeg3.toList ++
  src ++ tmplSeg4.toList ++ escapeSrcdoc content ++ tmplSeg5.toList

/-- The per-character test of line 99 of the program:
`c.isalnum() or c in (' ', '-', '_')`. -/
def keepChar (c : Char) : Bool :=
  pyIsAlnum c || c == ' ' || c == '-' || c == '_'

/-- Line 99 of the program:
`safe_title = "".join(c for c in game_title.get() if c.isalnum() or c in (' ', '-', '_')).rstrip()`. -/
def safeTitle (title : List Char) : List Char :=
  pyRstrip (title.filter keepChar)

/-- The file name part of line 100: `f"\x7bsafe_title\x7d.html"`. -/
def outputFileName (title : List Char) : List Char :=
  safeTitle title ++ ".html".toList

/-- The four input fields of the Page Generator window (the values of the
`tk.StringVar`s at the moment the Generate button is pressed). -/
structure Fields where
  gameHtmlPath : String
  coverImagePath : String
  gameTitle : String
  outputFolder : String

/-- The observable effects `generate_html` can perform, in program order:
error dialog, text-mode read, binary-mode read, file write, info dialog. -/
inductive Effect where
  | showError (msg : String)
  | readText (path : String)
  | readBytes (path : String)
  | writeFile (path content : String)
  | showInfo (msg : String)
deriving DecidableEq

/-- How a run of `generate_html` terminates: early return from the field
presence check, an uncaught I/O exception, or success. -/
inductive GenResult where
  | fieldError
  | ioError
  | success (outputPath document : String)
deriving DecidableEq

/-- Embedding of `generate_html` (lines 33–104).  The file system is an
oracle pair: `fsText path` is the decoded text of `path` (`none` when the
text-mode `open`/`read` raises), `fsBytes path` its raw bytes (`none` when
the binary read raises).  The returned list records every effect the run
performs, in order; an `ioError` result models the exception propagating
uncaught out of the handler, and the write at line 101 is modelled as
succeeding. -/
def generateHtml (f : Fields) (fsText : String → Option String)
    (fsBytes : String → Option (List Nat)) : GenResult × List Effect :=
  if f.gameHtmlPath = "" ∨ f.coverImagePath = "" ∨ f.gameTitle = "" ∨
      f.outputFolder = "" then
    (.fieldError, [.showError "Please select all fields before generating."])
  else
    match fsText f.gameHtmlPath with
    | none => (.ioError, [.readText f.gameHtmlPath])
    | some gameContent =>
      match fsBytes f.coverImagePath with
      | none => (.ioError, [.readText f.gameHtmlPath, .readBytes f.coverImagePath])
      | some imageData =>
        let src := imgSrc f.coverImagePath.toList imageData
        let doc := String.mk (finalHtml f.gameTitle.toList src gameContent.toList)
        let outPath := String.mk
          (pyPathJoin f.outputFolder.toList (outputFileName f.gameTitle.toList))
        (.success outPath doc,
         [.readText f.gameHtmlPath, .readBytes f.coverImagePath,
          .writeFile outPath doc,
          .showInfo ("Generated HTML file at:\n" ++ outPath)])

/-- The output path of a successful run, `none` otherwise. -/
def resultPath : GenResult → Option String
  | .success p _ => some p
  | _ => none

/-! ## The Tile Generator -/

/-- Modelled from the spec: text of the tile snippet before the image path
(the Tile Generator's source file is not under `src/`). -/
def tileSeg1 : String :=
  "<div class=\"game-tile\">\n  <img class=\"game-tile-cover\" src=\""

/-- Modelled from the spec: tile snippet text between the image path and the
name. -/
def tileSeg2 : String := "\" alt=\""

/-- Modelled from the spec: tile snippet text between the two name
substitutions. -/
def tileSeg3 : String := "\">\n  <div class=\"game-tile-name\">"

/-- Modelled from the spec: tile snippet text between the name and the hidden
game HTML. -/
def tileSeg4 : String :=
  "</div>\n  <div class=\"game-tile-html\" style=\"display:none\">"

/-- Modelled from the spec: tile snippet text after the hidden game HTML. -/
def tileSeg5 : String := "</div>\n</div>"

/-- Modelled from the spec: the Tile Generator's source file is not under
`src/`.  Per spec sections 4.1, 6 and 8 it substitutes the name, the image
path and the HTML blob (escaping only double quotes inside the blob) into a
fixed snippet: a styled `<div>` with a fixed CSS-class structure, an `<img>`
tag referencing the original image path, the name as visible text, and a
hidden element containing the game HTML as text. -/
def tileHtml (name imagePath html : List Char) : List Char :=
  tileSeg1.toList ++ imagePath ++ tileSeg2.toList ++ name ++ tileSeg3.toList ++
  name ++ tileSeg4.toList ++ replaceChar html '"' "&quot;".toList ++
  tileSeg5.toList

/-! ## Specification-side definitions, for comparison with the code -/

/-- Spec side of the `srcdoc` escaping: a single simultaneous per-character
substitution sending `"` to `&quot;`, newline to one space, and every other
character to itself. -/
def specEscapeChar (c : Char) : List Char :=
  if c = '"' then "&quot;".toList else if c = '\n' then [' '] else [c]

/-- Spec side: the simultaneous escaping applied to a whole string. -/
def specEscape : List Char → List Char
  | [] => []
  | c :: cs => specEscapeChar c ++ specEscape cs

/-- Spec side: membership of a code point in the ASCII character class
`[A-Za-z0-9 _-]` named by the spec. -/
def asciiKeepNat (n : Nat) : Bool :=
  (48 ≤ n && n ≤ 57) || (65 ≤ n && n ≤ 90) || (97 ≤ n && n ≤ 122) ||
  n == 32 || n == 45 || n == 95

/-- Spec side: the output file name as the spec words it — the title with
every character outside `[A-Za-z0-9 _-]` removed, trailing whitespace
stripped, then `.html` appended. -/
def specFileName (title : List Char) : List Char :=
  pyRstrip (title.filter (fun c => asciiKeepNat c.toNat)) ++ ".html".toList

/-! ## Theorems about the field-presence check and the run's effects -/

/-- C1: whenever at least one of the four required fields is the empty
string, `generate_html` shows the error dialog and returns at once: the run's
only effect is the dialog, so no input file is read and no output file is
written. -/
theorem generate_refused_on_empty_field (f : Fields)
    (fsText : String → Option String) (fsBytes : String → Option (List Nat))
    (h : f.gameHtmlPath = "" ∨ f.coverImagePath = "" ∨ f.gameTitle = "" ∨
      f.outputFolder = "") :
    generateHtml f fsText fsBytes =
      (GenResult.fieldError,
       [Effect.showError "Please select all fields before generating."]) := by
  unfold generateHtml
  rw [if_pos h]

/-- Witness for C1 at a concrete run with an empty title. -/
theorem generate_refused_on_empty_field_witness :
    (Fields.mk "/g.html" "/c.png" "" "/out").gameTitle = "" ∧
      generateHtml (Fields.mk "/g.html" "/c.png" "" "/out")
          (fun _ => none) (fun _ => none) =
        (GenResult.fieldError,
         [Effect.showError "Please select all fields before generating."]) :=
  ⟨rfl, generate_refused_on_empty_field _ _ _ (Or.inr (Or.inr (Or.inl rfl)))⟩

/-- C6: with all four fields non-empty, if reading the game HTML file or the
cover image file fails, the run ends in the uncaught-exception state and its
effect list contains no file write. -/
theorem generate_read_error_no_write (f : Fields)
    (fsText : String → Option String) (fsBytes : String → Option (List Nat))
    (h1 : f.gameHtmlPath ≠ "") (h2 : f.coverImagePath ≠ "")
    (h3 : f.gameTitle ≠ "") (h4 : f.outputFolder ≠ "")
    (hio : fsText f.gameHtmlPath = none ∨ fsBytes f.coverImagePath = none) :
    (generateHtml f fsText fsBytes).1 = GenResult.ioError ∧
      ∀ p c, Effect.writeFile p c ∉ (generateHtml f fsText fsBytes).2 := by
  unfold generateHtml
  rw [if_neg (by tauto)]
  cases hT : fsText f.gameHtmlPath with
  | none => exact ⟨rfl, by simp⟩
  | some content =>
    cases hB : fsBytes f.coverImagePath with
    | none => exact ⟨rfl, by simp⟩
    | some data =>
      rcases hio with hio | hio
      · rw [hT] at hio; simp at hio
      · rw [hB] at hio; simp at hio

/-- Witness for C6 at a concrete run whose HTML read fails. -/
theorem generate_read_error_no_write_witness :
    ((fun _ => none : String → Option String) "/g.html" = none ∨
      (fun _ => some [1] : String → Option (List Nat)) "/c.png" = none) ∧
    ((generateHtml (Fields.mk "/g.html" "/c.png" "T" "/out")
        (fun _ => none) (fun _ => some [1])).1 = GenResult.ioError ∧
      ∀ p c, Effect.writeFile p c ∉
        (generateHtml (Fields.mk "/g.html" "/c.png" "T" "/out")
          (fun _ => none) (fun _ => some [1])).2) :=
  ⟨Or.inl rfl,
   generate_read_error_no_write _ _ _ (by decide) (by decide) (by decide)
     (by decide) (Or.inl rfl)⟩

/-- C7: `generate_html` is deterministic and stateless — its outcome is a
function of the field values and of the contents the file system returns for
the two referenced paths, so two runs agreeing on those agree on everything
(result, output path and document, and effect list). -/
theorem generate_deterministic (f : Fields)
    (t1 t2 : String → Option String) (b1 b2 : String → Option (List Nat))
    (ht : t1 f.gameHtmlPath = t2 f.gameHtmlPath)
    (hb : b1 f.coverImagePath = b2 f.coverImagePath) :
    generateHtml f t1 b1 = generateHtml f t2 b2 := by
  unfold generateHtml
  rw [ht, hb]

/-- Witness for C7 at concrete oracle pairs that agree on the referenced
paths but differ elsewhere. -/
theorem generate_deterministic_witness :
    ((fun p => if p = "/g.html" then some "<p>a</p>" else none :
        String → Option String) "/g.html" =
      (fun _ => some "<p>a</p>" : String → Option String) "/g.html") ∧
    generateHtml (Fields.mk "/g.html" "/c.png" "T" "/out")
        (fun p => if p = "/g.html" then some "<p>a</p>" else none)
        (fun _ => some [2, 3]) =
      generateHtml (Fields.mk "/g.html" "/c.png" "T" "/out")
        (fun _ => some "<p>a</p>") (fun _ => some [2, 3]) :=
  ⟨by decide,
   generate_deterministic _ _ _ _ _ (by decide) rfl⟩

/-- C8: a successful run (all fields non-empty, both reads succeed) performs
exactly these effects in order: the two reads, one single file write — at the
path obtained by joining the derived file name to the chosen output folder,
with the generated document as content — and the success dialog.  No other
write, and no delete or further modification, occurs. -/
theorem generate_success_effects (f : Fields)
    (fsText : String → Option String) (fsBytes : String → Option (List Nat))
    (content : String) (data : List Nat)
    (h1 : f.gameHtmlPath ≠ "") (h2 : f.coverImagePath ≠ "")
    (h3 : f.gameTitle ≠ "") (h4 : f.outputFolder ≠ "")
    (hT : fsText f.gameHtmlPath = some content)
    (hB : fsBytes f.coverImagePath = some data) :
    generateHtml f fsText fsBytes =
      (GenResult.success
        (String.mk (pyPathJoin f.outputFolder.toList
          (outputFileName f.gameTitle.toList)))
        (String.mk (finalHtml f.gameTitle.toList
          (imgSrc f.coverImagePath.toList data) content.toList)),
       [Effect.readText f.gameHtmlPath,
        Effect.readBytes f.coverImagePath,
        Effect.writeFile
          (String.mk (pyPathJoin f.outputFolder.toList
            (outputFileName f.gameTitle.toList)))
          (String.mk (finalHtml f.gameTitle.toList
            (imgSrc f.coverImagePath.toList data) content.toList)),
        Effect.showInfo ("Generated HTML file at:\n" ++
          String.mk (pyPathJoin f.outputFolder.toList
            (outputFileName f.gameTitle.toList)))]) := by
  unfold generateHtml
  rw [if_neg (by tauto), hT, hB]

/-- Witness for C8 at a concrete successful run. -/
theorem generate_success_effects_witness :
    ((fun _ => some "<p>a</p>" : String → Option String) "/g.html" =
        some "<p>a</p>") ∧
    generateHtml (Fields.mk "/g.html" "/c.png" "T" "/out")
        (fun _ => some "<p>a</p>") (fun _ => some [1, 2]) =
      (GenResult.success
        (String.mk (pyPathJoin "/out".toList (outputFileName "T".toList)))
        (String.mk (finalHtml "T".toList
          (imgSrc "/c.png".toList [1, 2]) "<p>a</p>".toList)),
       [Effect.readText "/g.html",
        Effect.readBytes "/c.png",
        Effect.writeFile
          (String.mk (pyPathJoin "/out".toList (outputFileName "T".toList)))
          (String.mk (finalHtml "T".toList
            (imgSrc "/c.png".toList [1, 2]) "<p>a</p>".toList)),
        Effect.showInfo ("Generated HTML file at:\n" ++
          String.mk (pyPathJoin "/out".toList (outputFileName "T".toList)))]) :=
  ⟨rfl,
   generate_success_effects _ _ _ _ _ (by decide) (by decide) (by decide)
     (by decide) rfl rfl⟩

/-- C10: the title `"!!!"` is non-empty, so the presence check accepts the
run, yet every one of its characters is discarded by the sanitisation: the
derived file name is exactly `.html`, and a file of that name is written into
the output folder. -/
theorem symbols_only_title_writes_dot_html :
    resultPath (generateHtml (Fields.mk "/g.html" "/c.png" "!!!" "/out")
        (fun _ => some "<p>hi</p>") (fun _ => some [1, 2, 3])).1 =
      some "/out/.html" ∧
    (generateHtml (Fields.mk "/g.html" "/c.png" "!!!" "/out")
        (fun _ => some "<p>hi</p>") (fun _ => some [1, 2, 3])).2.any
      (fun e => match e with
        | Effect.writeFile p _ => p == "/out/.html"
        | _ => false) = true := by
  constructor
  · rfl
  · rfl

/-! ## Theorems about the generated document -/

/-- One-character replacement distributes over list concatenation. -/
theorem replaceChar_append (a b : List Char) (pat : Char) (rep : List Char) :
    replaceChar (a ++ b) pat rep = replaceChar a pat rep ++ replaceChar b pat rep := by
  induction a with
  | nil => rfl
  | cons x xs ih => simp [replaceChar, ih, List.append_assoc]

/-- The two sequential `replace` calls of line 92 equal one simultaneous
per-character substitution: the first replacement introduces no newline, so
the second cannot rewrite inside its output. -/
theorem escapeSrcdoc_eq_specEscape (content : List Char) :
    escapeSrcdoc content = specEscape content := by
  induction content with
  | nil => rfl
  | cons c cs ih =>
    unfold escapeSrcdoc at ih ⊢
    simp only [replaceChar, replaceChar_append, specEscape, specEscapeChar]
    rw [ih]
    by_cases hq : c = '"'
    · subst hq
      rfl
    · by_cases hn : c = '\n'
      · subst hn
        rw [if_neg hq, if_neg hq]
        rfl
      · rw [if_neg hq, if_neg hq, if_neg hn]
        simp [replaceChar, hn]

/-- C5: the generated document is the fixed template with the title
substituted verbatim (twice), the data URI substituted verbatim, and the game
HTML escaped by the simultaneous substitution that sends every `"` to
`&quot;`, every newline to a single space, and every other character to
itself. -/
theorem final_document_shape (title src content : List Char) :
    finalHtml title src content =
      tmplSeg1.toList ++ title ++ tmplSeg2.toList ++ title ++
      tmplSeg3.toList ++ src ++ tmplSeg4.toList ++ specEscape content ++
      tmplSeg5.toList := by
  unfold finalHtml
  rw [escapeSrcdoc_eq_specEscape]

/-- C4: the data URI is `data:image/` followed by the MIME subtype — the
`splitext` extension of the selected path, lowercased, with its leading dot
dropped — then `;base64,` and the encoded payload; the subtype depends only
on the path, never on the image bytes.  Concretely, `/img/Cover.PNG` yields
subtype `png`. -/
theorem data_uri_subtype_from_extension :
    (∀ path data, imgSrc path data =
      "data:image/".toList ++ ((pySplitextExt path).map pyLowerAscii).drop 1 ++
      ";base64,".toList ++ b64Encode data) ∧
    mimeExt "/img/Cover.PNG".toList = "png".toList :=
  ⟨fun _ _ => rfl, by decide⟩

/-- C9: on non-empty inputs the tile snippet contains the name literally, the
image path literally, and the game HTML with every double quote replaced by
`&quot;`. -/
theorem tile_contains_literals (name imagePath html : List Char)
    (_hn : name ≠ []) (_hp : imagePath ≠ []) (_hh : html ≠ []) :
    (∃ u v, tileHtml name imagePath html = u ++ name ++ v) ∧
    (∃ u v, tileHtml name imagePath html = u ++ imagePath ++ v) ∧
    (∃ u v, tileHtml name imagePath html =
      u ++ replaceChar html '"' "&quot;".toList ++ v) := by
  refine ⟨⟨tileSeg1.toList ++ imagePath ++ tileSeg2.toList,
      tileSeg3.toList ++ name ++ tileSeg4.toList ++
        replaceChar html '"' "&quot;".toList ++ tileSeg5.toList, ?_⟩,
    ⟨tileSeg1.toList,
      tileSeg2.toList ++ name ++ tileSeg3.toList ++ name ++ tileSeg4.toList ++
        replaceChar html '"' "&quot;".toList ++ tileSeg5.toList, ?_⟩,
    ⟨tileSeg1.toList ++ imagePath ++ tileSeg2.toList ++ name ++
        tileSeg3.toList ++ name ++ tileSeg4.toList, tileSeg5.toList, ?_⟩⟩ <;>
  simp [tileHtml, List.append_assoc]

/-- Witness for C9 at concrete non-empty inputs. -/
theorem tile_contains_literals_witness :
    ("N".toList ≠ ([] : List Char)) ∧
    ((∃ u v, tileHtml "N".toList "/i.png".toList "<a href=\"x\">go</a>".toList =
        u ++ "N".toList ++ v) ∧
     (∃ u v, tileHtml "N".toList "/i.png".toList "<a href=\"x\">go</a>".toList =
        u ++ "/i.png".toList ++ v) ∧
     (∃ u v, tileHtml "N".toList "/i.png".toList "<a href=\"x\">go</a>".toList =
        u ++ replaceChar "<a href=\"x\">go</a>".toList '"' "&quot;".toList ++ v)) :=
  ⟨by decide,
   tile_contains_literals _ _ _ (by decide) (by decide) (by decide)⟩

/-! ## Theorems about the derived output file name -/

/-- On code points below 128 — that is, on ASCII — the program's
keep-a-character test of line 99 agrees with the spec's character class
`[A-Za-z0-9 _-]`. -/
theorem keepChar_eq_ascii : ∀ n, n < 128 →
    keepChar (Char.ofNat n) = asciiKeepNat n := by decide

/-- C2 (amended): for titles made of ASCII characters only, the output file
name is the title with every character outside `[A-Za-z0-9 _-]` removed,
trailing whitespace stripped, and `.html` appended. -/
theorem output_name_matches_spec_on_ascii (title : List Char)
    (h : ∀ c ∈ title, c.toNat < 128) :
    outputFileName title = specFileName title := by
  unfold outputFileName specFileName safeTitle
  have hf : title.filter keepChar =
      title.filter (fun c => asciiKeepNat c.toNat) := by
    refine List.filter_congr ?_
    intro c hc
    have hlt := keepChar_eq_ascii c.toNat (h c hc)
    rwa [Char.ofNat_toNat] at hlt
  rw [hf]

/-- Witness for the amended C2 at a concrete ASCII title. -/
theorem output_name_matches_spec_on_ascii_witness :
    (∀ c ∈ "My Game!! ".toList, c.toNat < 128) ∧
      outputFileName "My Game!! ".toList = specFileName "My Game!! ".toList :=
  ⟨by decide, output_name_matches_spec_on_ascii _ (by decide)⟩

/-- Counterexample to C2 as stated: Python's `str.isalnum` is Unicode-aware,
so the non-ASCII letter `é` survives into the file name `é.html`, while the
claim's ASCII class would have removed it and produced `.html`. -/
theorem output_name_nonascii_char_survives :
    outputFileName "é".toList = "é.html".toList ∧
      specFileName "é".toList = ".html".toList := by
  constructor <;> decide

/-! ## The base64 round trip -/

/-- Decoding table inverts the encoding table on sextet values. -/
theorem sextetVal_sextetChar : ∀ n, n < 64 →
    sextetVal (sextetChar n) = n := by decide

/-- No sextet value encodes to the padding character. -/
theorem sextetChar_ne_pad : ∀ n, n < 64 → sextetChar n ≠ '=' := by decide

/-- Decoding a full four-character quantum recovers its three source
bytes. -/
theorem decodeChunk_encode3 (b0 b1 b2 : Nat)
    (h0 : b0 < 256) (h1 : b1 < 256) (h2 : b2 < 256) :
    decodeChunk (sextetChar (b0 / 4)) (sextetChar (b0 % 4 * 16 + b1 / 16))
      (sextetChar (b1 % 16 * 4 + b2 / 64)) (sextetChar (b2 % 64)) =
      [b0, b1, b2] := by
  have e0 : b0 / 4 < 64 := by omega
  have e1 : b0 % 4 * 16 + b1 / 16 < 64 := by omega
  have e2 : b1 % 16 * 4 + b2 / 64 < 64 := by omega
  have e3 : b2 % 64 < 64 := by omega
  unfold decodeChunk
  rw [if_neg (sextetChar_ne_pad _ e2), if_neg (sextetChar_ne_pad _ e3),
    sextetVal_sextetChar _ e0, sextetVal_sextetChar _ e1,
    sextetVal_sextetChar _ e2, sextetVal_sextetChar _ e3]
  simp only [List.cons.injEq, and_true]
  omega

/-- Decoding a quantum padded with one `=` recovers its two source bytes. -/
theorem decodeChunk_encode2 (b0 b1 : Nat) (h0 : b0 < 256) (h1 : b1 < 256) :
    decodeChunk (sextetChar (b0 / 4)) (sextetChar (b0 % 4 * 16 + b1 / 16))
      (sextetChar (b1 % 16 * 4)) '=' = [b0, b1] := by
  have e0 : b0 / 4 < 64 := by omega
  have e1 : b0 % 4 * 16 + b1 / 16 < 64 := by omega
  have e2 : b1 % 16 * 4 < 64 := by omega
  unfold decodeChunk
  rw [if_neg (sextetChar_ne_pad _ e2), if_pos rfl,
    sextetVal_sextetChar _ e0, sextetVal_sextetChar _ e1,
    sextetVal_sextetChar _ e2]
  simp only [List.cons.injEq, and_true]
  omega

/-- Decoding a quantum padded with `==` recovers its single source byte. -/
theorem decodeChunk_encode1 (b0 : Nat) (h0 : b0 < 256) :
    decodeChunk (sextetChar (b0 / 4)) (sextetChar (b0 % 4 * 16)) '=' '=' =
      [b0] := by
  have e0 : b0 / 4 < 64 := by omega
  have e1 : b0 % 4 * 16 < 64 := by omega
  unfold decodeChunk
  rw [if_pos rfl, sextetVal_sextetChar _ e0, sextetVal_sextetChar _ e1]
  simp only [List.cons.injEq, and_true]
  omega

/-- Base64 decoding is a left inverse of the program's base64 encoding on
byte lists. -/
theorem b64_decode_encode (bs : List Nat) (h : ∀ b ∈ bs, b < 256) :
    b64Decode (b64Encode bs) = bs := by
  induction bs using b64Encode.induct with
  | case1 b0 b1 b2 rest ih =>
    have h0 : b0 < 256 := h b0 (by simp)
    have h1 : b1 < 256 := h b1 (by simp)
    have h2 : b2 < 256 := h b2 (by simp)
    have hrest : ∀ b ∈ rest, b < 256 := fun b hb => h b (by simp [hb])
    simp only [b64Encode, b64Decode]
    rw [decodeChunk_encode3 b0 b1 b2 h0 h1 h2, ih hrest]
    rfl
  | case2 b0 b1 =>
    have h0 : b0 < 256 := h b0 (by simp)
    have h1 : b1 < 256 := h b1 (by simp)
    simp only [b64Encode, b64Decode]
    rw [decodeChunk_encode2 b0 b1 h0 h1]
    rfl
  | case3 b0 =>
    have h0 : b0 < 256 := h b0 (by simp)
    simp only [b64Encode, b64Decode]
    rw [decodeChunk_encode1 b0 h0]
    rfl
  | case4 => rfl

/-- C3: the data URI embeds `b64Encode` of the image bytes as its payload,
and base64 decoding recovers those bytes exactly — decoding is a left inverse
of the embedding performed at lines 43–47. -/
theorem embedded_image_roundtrip (path : List Char) (data : List Nat)
    (h : ∀ b ∈ data, b < 256) :
    imgSrc path data =
      "data:image/".toList ++ mimeExt path ++ ";base64,".toList ++
        b64Encode data ∧
      b64Decode (b64Encode data) = data :=
  ⟨rfl, b64_decode_encode data h⟩

/-- Witness for C3 at the four-byte PNG signature prefix. -/
theorem embedded_image_roundtrip_witness :
    (∀ b ∈ [137, 80, 78, 71], b < 256) ∧
      (imgSrc "/c.png".toList [137, 80, 78, 71] =
        "data:image/".toList ++ mimeExt "/c.png".toList ++
          ";base64,".toList ++ b64Encode [137, 80, 78, 71] ∧
        b64Decode (b64Encode [137, 80, 78, 71]) = [137, 80, 78, 71]) :=
  ⟨by decide, embedded_image_roundtrip _ _ (by decide)⟩

end AnonyChat
